import Mathlib

/-!
Verification of the session HTTP client layer (`baseService.ts`)

Shallow embedding of the axios interceptor logic of
`src/frontend/src/services/baseService.ts` (the variant with retry/backoff,
redirect cooldown and the `isTokenValid` helper): request interceptor,
response success/error interceptors, the retry ledger and the redirect guard.
Browser state (`localStorage`, `sessionStorage`, `window.location`,
`Date.now()`, `document.visibilityState`) is passed explicitly.
-/

set_option autoImplicit false

namespace BaseService

/-! JavaScript primitives used by the source -/

/-- JS string truthiness as used in `if (token)` / `if (config.url)`:
`undefined` (here `none`) and the empty string are falsy. -/
def jsTruthyStr : Option String → Bool
  | some s => s != ""
  | none => false

/-- Containment of `sub` as a contiguous run of `l`. -/
def containsSub (sub : List Char) : List Char → Bool
  | [] => sub.isEmpty
  | c :: rest => sub.isPrefixOf (c :: rest) || containsSub sub rest

/-- JS `String.prototype.includes`: substring containment. -/
def jsIncludes (s sub : String) : Bool :=
  containsSub sub.toList s.toList

/-- JS `str.indexOf(pat) === 0`, i.e. `str` starts with `pat`. -/
def jsStartsWith (s pat : String) : Bool :=
  List.isPrefixOf pat.toList s.toList

/-- The characters `encodeURIComponent` leaves unescaped:
alphanumerics, the marks `- _ . ! ~ *`, the single-quote character, and
parentheses. -/
def isUnreservedURIChar (c : Char) : Bool :=
  (('A' ≤ c && c ≤ 'Z') || ('a' ≤ c && c ≤ 'z') || ('0' ≤ c && c ≤ '9')) ||
  (c = '-' || c = '_' || c = '.' || c = '!' || c = '~' || c = '*' ||
   c = Char.ofNat 39 || c = '(' || c = ')')

/-- Upper-case hex digit of a value below 16. -/
def hexDigit (n : Nat) : Char :=
  if n < 10 then Char.ofNat (48 + n) else Char.ofNat (55 + n)

/-- Percent-encoding `%HH` of one byte. -/
def percentByte (b : Nat) : List Char :=
  ['%', hexDigit (b / 16), hexDigit (b % 16)]

/-- UTF-8 bytes of a character. -/
def utf8Bytes (c : Char) : List Nat :=
  let n := c.toNat
  if n < 128 then [n]
  else if n < 2048 then [192 + n / 64, 128 + n % 64]
  else if n < 65536 then [224 + n / 4096, 128 + n / 64 % 64, 128 + n % 64]
  else [240 + n / 262144, 128 + n / 4096 % 64, 128 + n / 64 % 64, 128 + n % 64]

/-- JS `encodeURIComponent`: unreserved characters kept, every other
character replaced by the percent-encoding of its UTF-8 bytes. -/
def encodeURIComponent (s : String) : String :=
  String.mk (s.toList.flatMap fun c =>
    if isUnreservedURIChar c then [c] else (utf8Bytes c).flatMap percentByte)

/-- JS `Map.prototype.get` / object property lookup on a string-keyed,
insertion-ordered association list. -/
def mapGet {α : Type} : List (String × α) → String → Option α
  | [], _ => none
  | (k', v) :: rest, k => if k' = k then some v else mapGet rest k

/-- JS `Map.prototype.set` / property assignment: overwrite in place when
the key is present, append otherwise. -/
def mapSet {α : Type} : List (String × α) → String → α → List (String × α)
  | [], k, v => [(k, v)]
  | (k', v') :: rest, k, v =>
    if k' = k then (k, v) :: rest else (k', v') :: mapSet rest k v

/-- JS `Map.prototype.delete`. -/
def mapDelete {α : Type} (m : List (String × α)) (k : String) : List (String × α) :=
  m.filter (fun p => p.1 != k)

/-! Data model -/

/-- The axios request config fields the interceptors read or write. -/
structure Config where
  url : Option String
  method : Option String
  headers : List (String × String)
  deriving Repr, DecidableEq

/-- The part of an axios response the interceptors inspect. -/
structure Response where
  status : Nat
  deriving Repr, DecidableEq

/-- An axios error as delivered to the response error interceptor:
the request `config`, an optional `code` (`"ECONNABORTED"` marks a
client-side timeout) and the HTTP `response` when the server answered. -/
structure AxiosErr where
  config : Option Config
  code : Option String
  response : Option Response
  deriving Repr, DecidableEq

/-- Browser inputs read by the interceptors: `window.location.pathname`,
`window.location.search`, `document.visibilityState` and `Date.now()`. -/
structure Env where
  pathname : String
  search : String
  visibilityState : String
  now : Nat
  deriving Repr, DecidableEq

/-- The mutable client-side state `baseService.ts` touches:
the token entry of localStorage, the redirectAfterLogin entry of
sessionStorage, the
module-level `retryCount` map and `lastRedirectTime`, and the value
assigned to `window.location.href` (`none` = never assigned). -/
structure ClientState where
  token : Option String
  redirectAfterLogin : Option String
  retryCount : List (String × Nat)
  lastRedirectTime : Nat
  locationHref : Option String
  deriving Repr, DecidableEq

/-- Source constant REDIRECT_COOLDOWN, 3000 ms. -/
def REDIRECT_COOLDOWN : Nat := 3000

/-- Source constant retryableEndpoints, the singleton list of the
identity-check path. -/
def retryableEndpoints : List String := ["/users/me"]

/-! Interceptors -/

/-- The request interceptor: read the token from localStorage; when truthy,
set the Authorization header of the config to the string Bearer followed by
a space and the token. -/
def requestInterceptor (token : Option String) (config : Config) : Config :=
  if jsTruthyStr token then
    { config with
      headers := mapSet config.headers "Authorization" ("Bearer " ++ token.getD "") }
  else config

/-- The response success interceptor: when `response.config.url` is truthy,
delete the retry-ledger entry of that URL. -/
def responseSuccessInterceptor (st : ClientState) (config : Config) : ClientState :=
  if jsTruthyStr config.url then
    { st with retryCount := mapDelete st.retryCount (config.url.getD "") }
  else st

/-- Value of `error.config.url` through optional chaining. -/
def errUrl (e : AxiosErr) : Option String := e.config.bind Config.url

/-- Value of `error.config.method` through optional chaining. -/
def errMethod (e : AxiosErr) : Option String := e.config.bind Config.method

/-- Whether `error.response?.status === 401`. -/
def is401 (e : AxiosErr) : Bool :=
  match e.response with
  | some r => r.status = 401
  | none => false

/-- Whether some retryable endpoint occurs in `error.config.url`. -/
def urlMatchesRetryable (e : AxiosErr) : Bool :=
  retryableEndpoints.any fun ep =>
    match errUrl e with
    | some u => jsIncludes u ep
    | none => false

/-- The retry guard:
the config exists, and either the error code marks a client-side timeout
(ECONNABORTED) or the response status is 401 and the URL matches a
retryable endpoint. -/
def retryCond (e : AxiosErr) : Bool :=
  e.config.isSome &&
    (e.code == some "ECONNABORTED" || (is401 e && urlMatchesRetryable e))

/-- What the error interceptor hands back to axios: re-issue the request
(`return apiClient(error.config)`) after `delayMs` milliseconds, or reject
the promise with the error. -/
inductive HandlerOut where
  | retry (delayMs : Nat) (config : Config)
  | reject (e : AxiosErr)
  deriving Repr, DecidableEq

/-- The 401 block of the response error interceptor: the login-endpoint
bypass, token clearing, pending-return-path recording and the guarded
assignment of `window.location.href`; always rejects with the same error. -/
def handle401 (env : Env) (st : ClientState) (e : AxiosErr) : HandlerOut × ClientState :=
  if is401 e then
    if jsTruthyStr (errUrl e) && jsIncludes ((errUrl e).getD "") "/auth/login" then
      (HandlerOut.reject e, st)
    else
      let st1 := { st with token := none }
      let currentPath := env.pathname ++ env.search
      if env.now - st1.lastRedirectTime > REDIRECT_COOLDOWN then
        let st2 := { st1 with lastRedirectTime := env.now }
        if currentPath != "/login" && !(jsStartsWith currentPath "/login") then
          let st3 := { st2 with redirectAfterLogin := some currentPath }
          if env.visibilityState == "visible" && !(errMethod e == some "get") then
            (HandlerOut.reject e,
             { st3 with
               locationHref := some ("/login?redirect=" ++ encodeURIComponent currentPath) })
          else (HandlerOut.reject e, st3)
        else (HandlerOut.reject e, st2)
      else (HandlerOut.reject e, st1)
  else (HandlerOut.reject e, st)

/-- The response error interceptor of `baseService.ts`: retry branch first
(ledger-bounded exponential backoff, token re-read before resending), then
the 401 block, then rejection. -/
def responseErrorInterceptor (env : Env) (st : ClientState) (e : AxiosErr) :
    HandlerOut × ClientState :=
  if retryCond e then
    let currentUrl := (errUrl e).getD ""
    let currentRetryCount := (mapGet st.retryCount currentUrl).getD 0
    if currentRetryCount < 2 then
      let delay := 2 ^ currentRetryCount * 1000
      let st1 := { st with retryCount := mapSet st.retryCount currentUrl (currentRetryCount + 1) }
      let config := e.config.getD ⟨none, none, []⟩
      let config1 :=
        if jsTruthyStr st1.token then
          { config with
            headers := mapSet config.headers "Authorization" ("Bearer " ++ st1.token.getD "") }
        else config
      (HandlerOut.retry delay config1, st1)
    else handle401 env st e
  else handle401 env st e

/-- Outcome of the identity-check probe (a GET of the identity path with a
5 s timeout) as the catch block of `isTokenValid` observes it: resolution,
or a caught error
with its `axios.isAxiosError` classification and `error.response?.status`. -/
inductive ProbeResult where
  | ok
  | fail (isAxiosError : Bool) (status : Option Nat)
  deriving Repr, DecidableEq

/-- Helper `isTokenValid`: a falsy stored token is invalid without any
network call; otherwise the probe result
is classified — only a definite axios 401 invalidates the token. -/
def isTokenValid (token : Option String) (probe : ProbeResult) : Bool :=
  if !(jsTruthyStr token) then false
  else
    match probe with
    | ProbeResult.ok => true
    | ProbeResult.fail isAx status =>
      if isAx && status == some 401 then false else true

/-- Outcome of one network attempt, as supplied by the environment. -/
inductive Outcome where
  | ok (config : Config)
  | err (e : AxiosErr)
  deriving Repr, DecidableEq

/-- Final fate of a logical request after the interceptor chain. -/
inductive RunResult where
  | success (config : Config)
  | failure (e : AxiosErr)
  | pending
  deriving Repr, DecidableEq

/-- Replay one logical request through the interceptors: each list element
is the outcome of one network attempt; a `retry` verdict consumes the next
outcome. Returns the final fate, the final state, and the backoff delays
waited before the successive retries. -/
def runAttempts (env : Env) : ClientState → List Outcome → RunResult × ClientState × List Nat
  | st, [] => (RunResult.pending, st, [])
  | st, Outcome.ok config :: _ =>
    (RunResult.success config, responseSuccessInterceptor st config, [])
  | st, Outcome.err e :: rest =>
    match responseErrorInterceptor env st e with
    | (HandlerOut.retry d _, st1) =>
      let r := runAttempts env st1 rest
      (r.1, r.2.1, d :: r.2.2)
    | (HandlerOut.reject e2, st1) => (RunResult.failure e2, st1, [])

/-! Helper lemmas about the embedded operations -/

theorem mapGet_mapSet_self {α : Type} (m : List (String × α)) (k : String) (v : α) :
    mapGet (mapSet m k v) k = some v := by
  induction m with
  | nil => simp [mapSet, mapGet]
  | cons p rest ih =>
    by_cases h : p.1 = k
    · simp [mapSet, h, mapGet]
    · simp [mapSet, h, mapGet, ih]

theorem mapGet_mapSet_ne {α : Type} (m : List (String × α)) (k w : String) (v : α)
    (h : w ≠ k) : mapGet (mapSet m k v) w = mapGet m w := by
  have hkw : ¬ k = w := fun hh => h hh.symm
  induction m with
  | nil => simp [mapSet, mapGet, hkw]
  | cons p rest ih =>
    by_cases hp : p.1 = k
    · simp [mapSet, hp, mapGet, hkw]
    · simp only [mapSet, hp, if_false, mapGet]
      by_cases hw : p.1 = w <;> simp [hw, ih]

theorem mapGet_mapSet_isSome {α : Type} (m : List (String × α)) (k w : String) (v : α)
    (h : (mapGet m w).isSome = true) : (mapGet (mapSet m k v) w).isSome = true := by
  by_cases hw : w = k
  · subst hw; simp [mapGet_mapSet_self]
  · rw [mapGet_mapSet_ne m k w v hw]; exact h

theorem mapGet_mapDelete_self {α : Type} (m : List (String × α)) (k : String) :
    mapGet (mapDelete m k) k = none := by
  induction m with
  | nil => simp [mapDelete, mapGet]
  | cons p rest ih =>
    by_cases h : p.1 = k
    · simpa [mapDelete, h] using ih
    · simpa [mapDelete, mapGet, h] using ih

/-- The 401 block always rejects the promise with the very error it was
handed, whatever else it does. -/
theorem handle401_fst (env : Env) (st : ClientState) (e : AxiosErr) :
    (handle401 env st e).1 = HandlerOut.reject e := by
  simp only [handle401]
  repeat (first | rfl | split)

/-- The 401 block never touches the retry ledger. -/
theorem handle401_retryCount (env : Env) (st : ClientState) (e : AxiosErr) :
    (handle401 env st e).2.retryCount = st.retryCount := by
  simp only [handle401]
  repeat (first | rfl | split)

/-- When the retry guard is off, the error interceptor is the 401 block. -/
theorem rei_of_retryCond_false (env : Env) (st : ClientState) (e : AxiosErr)
    (h : retryCond e = false) :
    responseErrorInterceptor env st e = handle401 env st e := by
  simp [responseErrorInterceptor, h]

/-- An error whose current-URL ledger entry is at the cap falls through to
the 401 block, whatever the retry guard says. -/
theorem rei_of_capped_any (env : Env) (st : ClientState) (e : AxiosErr)
    (hcnt : ¬ (mapGet st.retryCount ((errUrl e).getD "")).getD 0 < 2) :
    responseErrorInterceptor env st e = handle401 env st e := by
  by_cases hc : retryCond e
  · simp [responseErrorInterceptor, hc, hcnt]
  · simp [responseErrorInterceptor, hc]

/-- A retry-guarded error with the ledger at the cap also falls through to
the 401 block. -/
theorem rei_of_capped (env : Env) (st : ClientState) (e : AxiosErr) (u : String)
    (hu : errUrl e = some u)
    (hcnt : ¬ (mapGet st.retryCount u).getD 0 < 2) :
    responseErrorInterceptor env st e = handle401 env st e := by
  by_cases hc : retryCond e
  · simp [responseErrorInterceptor, hc, hu, hcnt]
  · simp [responseErrorInterceptor, hc]

/-- A retry-guarded error with ledger budget left makes the interceptor
re-issue the request after the exponential backoff delay, with the ledger
entry bumped. -/
theorem rei_retry (env : Env) (st : ClientState) (e : AxiosErr) (u : String)
    (hc : retryCond e = true) (hu : errUrl e = some u)
    (hcnt : (mapGet st.retryCount u).getD 0 < 2) :
    ∃ cfg, responseErrorInterceptor env st e =
      (HandlerOut.retry (2 ^ (mapGet st.retryCount u).getD 0 * 1000) cfg,
       { st with retryCount := mapSet st.retryCount u ((mapGet st.retryCount u).getD 0 + 1) }) := by
  refine ⟨if jsTruthyStr st.token then
      { (e.config.getD ⟨none, none, []⟩) with
        headers := mapSet (e.config.getD ⟨none, none, []⟩).headers "Authorization"
          ("Bearer " ++ st.token.getD "") }
    else e.config.getD ⟨none, none, []⟩, ?_⟩
  simp [responseErrorInterceptor, hc, hu, hcnt]

/-- Any error whose code is not a timeout and which is not a 401 on an
allow-listed URL fails the retry guard. -/
theorem retryCond_eq_false (e : AxiosErr)
    (hcode : e.code ≠ some "ECONNABORTED")
    (hflag : is401 e = false ∨ urlMatchesRetryable e = false) :
    retryCond e = false := by
  have hc : (e.code == some "ECONNABORTED") = false := by
    simpa using hcode
  rcases hflag with h | h <;> simp [retryCond, hc, h]

/-- A true retry guard on a non-timeout error certifies a 401 on an
allow-listed URL. -/
theorem retryCond_true_elim (e : AxiosErr)
    (hc : retryCond e = true)
    (hcode : e.code ≠ some "ECONNABORTED") :
    is401 e = true ∧ urlMatchesRetryable e = true := by
  have hb : (e.code == some "ECONNABORTED") = false := by simpa using hcode
  simp [retryCond, hb] at hc
  exact hc.2

/-- Under a non-timeout error whose allow-list budget is exhausted (or which
does not match the allow-list), the interceptor is the 401 block. -/
theorem rei_eq_handle401 (env : Env) (st : ClientState) (e : AxiosErr) (u : String)
    (hu : errUrl e = some u)
    (hcode : e.code ≠ some "ECONNABORTED")
    (hbudget : urlMatchesRetryable e = true → ¬ (mapGet st.retryCount u).getD 0 < 2) :
    responseErrorInterceptor env st e = handle401 env st e := by
  by_cases hc : retryCond e
  · rcases retryCond_true_elim e hc hcode with ⟨_, hret⟩
    exact rei_of_capped env st e u hu (hbudget hret)
  · exact rei_of_retryCond_false env st e (by simpa using hc)

/-- Explicit branch form of the 401 block for a 401 that does not hit the
login-endpoint bypass. -/
theorem handle401_nonlogin (env : Env) (st : ClientState) (e : AxiosErr)
    (h401 : is401 e = true)
    (hbyp : (jsTruthyStr (errUrl e) && jsIncludes ((errUrl e).getD "") "/auth/login") = false) :
    handle401 env st e = (HandlerOut.reject e,
      if env.now - st.lastRedirectTime > REDIRECT_COOLDOWN then
        if ((env.pathname ++ env.search) != "/login"
            && !(jsStartsWith (env.pathname ++ env.search) "/login")) = true then
          if (env.visibilityState == "visible" && !(errMethod e == some "get")) = true then
            { st with
              token := none,
              lastRedirectTime := env.now,
              redirectAfterLogin := some (env.pathname ++ env.search),
              locationHref :=
                some ("/login?redirect=" ++ encodeURIComponent (env.pathname ++ env.search)) }
          else
            { st with
              token := none,
              lastRedirectTime := env.now,
              redirectAfterLogin := some (env.pathname ++ env.search) }
        else { st with token := none, lastRedirectTime := env.now }
      else { st with token := none }) := by
  by_cases hcool : env.now - st.lastRedirectTime > REDIRECT_COOLDOWN <;>
    by_cases hpath : ((env.pathname ++ env.search) != "/login"
      && !(jsStartsWith (env.pathname ++ env.search) "/login")) = true <;>
    by_cases hnav : (env.visibilityState == "visible" && !(errMethod e == some "get")) = true <;>
    simp [handle401, h401, hbyp, hcool, hpath, hnav]

/-- Replay step: a retry-guarded failure with ledger budget left prepends
its backoff delay and bumps the ledger entry. -/
theorem runAttempts_err_step (env : Env) (st : ClientState) (e : AxiosErr)
    (u : String) (rest : List Outcome) (c : Nat)
    (hc : retryCond e = true) (hu : errUrl e = some u)
    (hcount : (mapGet st.retryCount u).getD 0 = c) (hcnt : c < 2) :
    runAttempts env st (Outcome.err e :: rest)
      = ((runAttempts env { st with retryCount := mapSet st.retryCount u (c + 1) } rest).1,
         (runAttempts env { st with retryCount := mapSet st.retryCount u (c + 1) } rest).2.1,
         2 ^ c * 1000 ::
           (runAttempts env { st with retryCount := mapSet st.retryCount u (c + 1) } rest).2.2) := by
  subst hcount
  obtain ⟨cfg1, heq⟩ := rei_retry env st e u hc hu hcnt
  simp [runAttempts, heq]

/-- Replay step: a failure whose ledger entry for its URL is at the cap ends the
replay, surfacing that very error. -/
theorem runAttempts_err_stop (env : Env) (st : ClientState) (e : AxiosErr)
    (u : String) (rest : List Outcome)
    (hu : errUrl e = some u)
    (hcnt : ¬ (mapGet st.retryCount u).getD 0 < 2) :
    runAttempts env st (Outcome.err e :: rest)
      = (RunResult.failure e, (handle401 env st e).2, []) := by
  have hcap := rei_of_capped env st e u hu hcnt
  have h1 : (responseErrorInterceptor env st e).1 = HandlerOut.reject e := by
    rw [hcap]; exact handle401_fst env st e
  have h2 : (responseErrorInterceptor env st e).2 = (handle401 env st e).2 := by
    rw [hcap]
  rcases hh : responseErrorInterceptor env st e with ⟨out, st1⟩
  rw [hh] at h1 h2
  have hout : out = HandlerOut.reject e := h1
  have hst1 : st1 = (handle401 env st e).2 := h2
  subst hout
  subst hst1
  simp [runAttempts, hh]

/-! Claim theorems -/

/-- C1 (counterexample): a client-side timeout (`ECONNABORTED`) on the URL
`/documents` — which does not match the allow-list — is
nevertheless retried with a 1 s backoff, so the claim that requests whose
URL is off the allow-list are never retried (even on timeout) is false. -/
theorem timeout_off_allowlist_is_retried :
    jsIncludes "/documents" "/users/me" = false ∧
    (responseErrorInterceptor ⟨"/a", "", "visible", 10000⟩
        ⟨some "t", none, [], 0, none⟩
        ⟨some ⟨some "/documents", some "get", []⟩, some "ECONNABORTED", none⟩).1
      = HandlerOut.retry 1000
          ⟨some "/documents", some "get", [("Authorization", "Bearer t")]⟩ := by
  decide

/-- C1 (amended): the retry branch covers client-side timeouts on any URL
and 401s on allow-listed URLs; every failure that is neither a timeout
(code ECONNABORTED) nor a 401 on a URL matching the allow-list is
not retried, and the interceptor rejects with that same error. -/
theorem no_retry_outside_policy (env : Env) (st : ClientState) (e : AxiosErr)
    (hcode : e.code ≠ some "ECONNABORTED")
    (hflag : is401 e = false ∨ urlMatchesRetryable e = false) :
    (responseErrorInterceptor env st e).1 = HandlerOut.reject e := by
  rw [rei_of_retryCond_false env st e (retryCond_eq_false e hcode hflag)]
  exact handle401_fst env st e

/-- C1 (witness): a 500 on `/documents` is rejected to the caller without
any retry. -/
theorem no_retry_outside_policy_witness :
    (responseErrorInterceptor ⟨"/a", "", "visible", 0⟩ ⟨none, none, [], 0, none⟩
        ⟨some ⟨some "/documents", some "get", []⟩, none, some ⟨500⟩⟩).1
      = HandlerOut.reject ⟨some ⟨some "/documents", some "get", []⟩, none, some ⟨500⟩⟩ :=
  no_retry_outside_policy _ _ _ (by decide) (Or.inl (by decide))

/-- C2: when a non-login 401 is handled (and the retry branch does not
take the error first), `window.location.href` gets assigned exactly when
the cooldown has elapsed, the current path is not the login path, the
document is visible, and the request method is not GET; if any of the four
fails, no navigation is recorded. -/
theorem redirect_guard_iff (env : Env) (st : ClientState) (e : AxiosErr)
    (cfg : Config) (u : String)
    (hcfg : e.config = some cfg) (hurl : cfg.url = some u)
    (hlogin : jsIncludes u "/auth/login" = false)
    (h401 : is401 e = true)
    (hcode : e.code ≠ some "ECONNABORTED")
    (hbudget : urlMatchesRetryable e = true → ¬ (mapGet st.retryCount u).getD 0 < 2)
    (hloc : st.locationHref = none) :
    ((responseErrorInterceptor env st e).2.locationHref ≠ none ↔
      (env.now - st.lastRedirectTime > REDIRECT_COOLDOWN ∧
       (env.pathname ++ env.search ≠ "/login" ∧
        jsStartsWith (env.pathname ++ env.search) "/login" = false) ∧
       env.visibilityState = "visible" ∧
       errMethod e ≠ some "get")) := by
  have hu : errUrl e = some u := by simp [errUrl, hcfg, hurl]
  rw [rei_eq_handle401 env st e u hu hcode hbudget,
    handle401_nonlogin env st e h401 (by simp [hu, hlogin])]
  by_cases hcool : env.now - st.lastRedirectTime > REDIRECT_COOLDOWN <;>
    by_cases hpathP : env.pathname ++ env.search ≠ "/login" ∧
      jsStartsWith (env.pathname ++ env.search) "/login" = false <;>
    by_cases hnavP : env.visibilityState = "visible" ∧ errMethod e ≠ some "get" <;>
    simp [hcool, hpathP, hnavP, hloc, Bool.and_eq_true, bne_iff_ne,
      Bool.not_eq_true', beq_iff_eq, beq_eq_false_iff_ne]

/-- C2 (witness): with all four conditions holding at a concrete input the
iff instantiates. -/
theorem redirect_guard_iff_witness :
    ((responseErrorInterceptor ⟨"/documents/42", "", "visible", 10000⟩
        ⟨some "abc", none, [], 0, none⟩
        ⟨some ⟨some "/documents", some "post", []⟩, none, some ⟨401⟩⟩).2.locationHref ≠ none ↔
      (10000 - 0 > REDIRECT_COOLDOWN ∧
       (("/documents/42" ++ "" : String) ≠ "/login" ∧
        jsStartsWith ("/documents/42" ++ "") "/login" = false) ∧
       ("visible" : String) = "visible" ∧
       errMethod ⟨some ⟨some "/documents", some "post", []⟩, none, some ⟨401⟩⟩ ≠ some "get")) :=
  redirect_guard_iff ⟨"/documents/42", "", "visible", 10000⟩
    ⟨some "abc", none, [], 0, none⟩
    ⟨some ⟨some "/documents", some "post", []⟩, none, some ⟨401⟩⟩
    ⟨some "/documents", some "post", []⟩ "/documents"
    rfl rfl (by decide) (by decide) (by decide) (by decide) rfl

/-- C5 (counterexample): a 401 response whose URL contains `/auth/login`
but also contains the allow-listed `/users/me` is first retried, not
rejected directly, so the claim as universally stated over URLs containing
the login path is false. -/
theorem login_401_retried_cex :
    jsIncludes "/users/me/auth/login" "/auth/login" = true ∧
    (responseErrorInterceptor ⟨"/a", "", "visible", 10000⟩ ⟨none, none, [], 0, none⟩
        ⟨some ⟨some "/users/me/auth/login", some "get", []⟩, none, some ⟨401⟩⟩).1
      = HandlerOut.retry 1000 ⟨some "/users/me/auth/login", some "get", []⟩ := by
  decide

/-- C5 (amended): for a 401 whose URL contains `/auth/login` and which does
not trigger the retry branch (not a timeout, and no allow-list retry budget
left for its URL), the interceptor rejects the error directly and leaves
the whole client state — token, pending-return path, redirect timestamp,
location — untouched. -/
theorem login_401_bypass (env : Env) (st : ClientState) (e : AxiosErr)
    (cfg : Config) (u : String)
    (hcfg : e.config = some cfg) (hurl : cfg.url = some u)
    (hlogin : jsIncludes u "/auth/login" = true)
    (h401 : is401 e = true)
    (hcode : e.code ≠ some "ECONNABORTED")
    (hbudget : urlMatchesRetryable e = true → ¬ (mapGet st.retryCount u).getD 0 < 2) :
    responseErrorInterceptor env st e = (HandlerOut.reject e, st) := by
  have hu : errUrl e = some u := by simp [errUrl, hcfg, hurl]
  have hne : u ≠ "" := by
    intro h
    rw [h] at hlogin
    exact absurd hlogin (by decide)
  rw [rei_eq_handle401 env st e u hu hcode hbudget]
  simp [handle401, h401, hu, jsTruthyStr, hlogin, hne]

/-- C5 (witness): a plain 401 from `/auth/login` with wrong credentials is
surfaced directly and changes nothing. -/
theorem login_401_bypass_witness :
    responseErrorInterceptor ⟨"/login", "", "visible", 10000⟩
        ⟨some "old", none, [], 0, none⟩
        ⟨some ⟨some "/auth/login", some "post", []⟩, none, some ⟨401⟩⟩
      = (HandlerOut.reject ⟨some ⟨some "/auth/login", some "post", []⟩, none, some ⟨401⟩⟩,
         ⟨some "old", none, [], 0, none⟩) :=
  login_401_bypass ⟨"/login", "", "visible", 10000⟩ ⟨some "old", none, [], 0, none⟩
    ⟨some ⟨some "/auth/login", some "post", []⟩, none, some ⟨401⟩⟩
    ⟨some "/auth/login", some "post", []⟩ "/auth/login"
    rfl rfl (by decide) (by decide) (by decide) (by decide)

/-- C6 (counterexample): a 401 from the non-login endpoint `/documents`
arriving within the 3 s cooldown clears the token but does NOT record the
current path under `redirectAfterLogin` (it stays `none`), so the claim
that the recording happens on every such 401 is false. -/
theorem path_recording_skipped_in_cooldown :
    (responseErrorInterceptor ⟨"/documents/7", "", "visible", 2000⟩
        ⟨some "abc", none, [], 1000, none⟩
        ⟨some ⟨some "/documents", some "post", []⟩, none, some ⟨401⟩⟩).2
      = ⟨none, none, [], 1000, none⟩ := by
  decide

/-- C6 (amended): every non-login 401 that reaches the 401 block deletes
the stored token; the current path is recorded under the pending-return
key exactly when the cooldown has elapsed and the current path is not the
login path — independently of document visibility and request method. -/
theorem token_cleared_path_recorded (env : Env) (st : ClientState) (e : AxiosErr)
    (cfg : Config) (u : String)
    (hcfg : e.config = some cfg) (hurl : cfg.url = some u)
    (hlogin : jsIncludes u "/auth/login" = false)
    (h401 : is401 e = true)
    (hcode : e.code ≠ some "ECONNABORTED")
    (hbudget : urlMatchesRetryable e = true → ¬ (mapGet st.retryCount u).getD 0 < 2) :
    (responseErrorInterceptor env st e).2.token = none ∧
    (env.now - st.lastRedirectTime > REDIRECT_COOLDOWN →
      ((env.pathname ++ env.search) != "/login"
        && !(jsStartsWith (env.pathname ++ env.search) "/login")) = true →
      (responseErrorInterceptor env st e).2.redirectAfterLogin
        = some (env.pathname ++ env.search)) ∧
    (¬ env.now - st.lastRedirectTime > REDIRECT_COOLDOWN →
      (responseErrorInterceptor env st e).2.redirectAfterLogin = st.redirectAfterLogin) ∧
    (((env.pathname ++ env.search) != "/login"
        && !(jsStartsWith (env.pathname ++ env.search) "/login")) = false →
      (responseErrorInterceptor env st e).2.redirectAfterLogin = st.redirectAfterLogin) := by
  have hu : errUrl e = some u := by simp [errUrl, hcfg, hurl]
  rw [rei_eq_handle401 env st e u hu hcode hbudget,
    handle401_nonlogin env st e h401 (by simp [hu, hlogin])]
  by_cases hcool : env.now - st.lastRedirectTime > REDIRECT_COOLDOWN <;>
    by_cases hpath : ((env.pathname ++ env.search) != "/login"
      && !(jsStartsWith (env.pathname ++ env.search) "/login")) = true <;>
    by_cases hnav : (env.visibilityState == "visible" && !(errMethod e == some "get")) = true <;>
    simp [hcool, hpath, hnav]

/-- C6 (witness): outside the cooldown, on a non-login path, token cleared
and the path recorded. -/
theorem token_cleared_path_recorded_witness :
    (responseErrorInterceptor ⟨"/documents/7", "", "hidden", 9000⟩
        ⟨some "abc", some "/old", [], 1000, none⟩
        ⟨some ⟨some "/documents", some "get", []⟩, none, some ⟨401⟩⟩).2.token = none ∧
    (responseErrorInterceptor ⟨"/documents/7", "", "hidden", 9000⟩
        ⟨some "abc", some "/old", [], 1000, none⟩
        ⟨some ⟨some "/documents", some "get", []⟩, none, some ⟨401⟩⟩).2.redirectAfterLogin
      = some ("/documents/7" ++ "") := by
  have h := token_cleared_path_recorded ⟨"/documents/7", "", "hidden", 9000⟩
    ⟨some "abc", some "/old", [], 1000, none⟩
    ⟨some ⟨some "/documents", some "get", []⟩, none, some ⟨401⟩⟩
    ⟨some "/documents", some "get", []⟩ "/documents"
    rfl rfl (by decide) (by decide) (by decide) (by decide)
  exact ⟨h.1, h.2.1 (by decide) (by decide)⟩

/-- C7: on path `/documents/42`, a non-GET request to a non-login endpoint
failing with 401 while the document is visible and the cooldown has
elapsed navigates to `/login?redirect=%2Fdocuments%2F42`. -/
theorem post_401_redirect_scenario (env : Env) (st : ClientState) (e : AxiosErr)
    (cfg : Config) (u m : String)
    (hpathname : env.pathname = "/documents/42") (hsearch : env.search = "")
    (hvis : env.visibilityState = "visible")
    (hcfg : e.config = some cfg) (hurl : cfg.url = some u)
    (hlogin : jsIncludes u "/auth/login" = false)
    (hmethod : cfg.method = some m) (hm : m ≠ "get")
    (h401 : is401 e = true)
    (hcode : e.code ≠ some "ECONNABORTED")
    (hbudget : urlMatchesRetryable e = true → ¬ (mapGet st.retryCount u).getD 0 < 2)
    (hcool : env.now - st.lastRedirectTime > REDIRECT_COOLDOWN) :
    (responseErrorInterceptor env st e).2.locationHref
      = some "/login?redirect=%2Fdocuments%2F42" := by
  have hu : errUrl e = some u := by simp [errUrl, hcfg, hurl]
  have hmeth : errMethod e = some m := by simp [errMethod, hcfg, hmethod]
  rw [rei_eq_handle401 env st e u hu hcode hbudget,
    handle401_nonlogin env st e h401 (by simp [hu, hlogin])]
  rw [hpathname, hsearch, hvis]
  have hpath : (("/documents/42" ++ "" : String) != "/login"
      && !(jsStartsWith ("/documents/42" ++ "") "/login")) = true := by decide
  have hnav : (("visible" : String) == "visible" && !(errMethod e == some "get")) = true := by
    simp [hmeth, hm]
  rw [if_pos hcool, if_pos hpath, if_pos hnav]
  simp
  decide

/-- C7 (witness): the scenario at a concrete input. -/
theorem post_401_redirect_scenario_witness :
    (responseErrorInterceptor ⟨"/documents/42", "", "visible", 10000⟩
        ⟨some "abc", none, [], 500, none⟩
        ⟨some ⟨some "/documents", some "post", []⟩, none, some ⟨401⟩⟩).2.locationHref
      = some "/login?redirect=%2Fdocuments%2F42" :=
  post_401_redirect_scenario ⟨"/documents/42", "", "visible", 10000⟩
    ⟨some "abc", none, [], 500, none⟩
    ⟨some ⟨some "/documents", some "post", []⟩, none, some ⟨401⟩⟩
    ⟨some "/documents", some "post", []⟩ "/documents" "post"
    rfl rfl rfl rfl rfl (by decide) rfl (by decide) (by decide) (by decide)
    (by decide) (by decide)

/-- C8 (counterexample): the empty string is a token value present in
storage, yet `if (token)` treats it as falsy, so no Authorization header is
added — the claim that any present token string is attached is false. -/
theorem empty_token_no_header :
    requestInterceptor (some "") ⟨some "/documents", some "get", []⟩
      = ⟨some "/documents", some "get", []⟩ ∧
    mapGet (requestInterceptor (some "")
        ⟨some "/documents", some "get", []⟩).headers "Authorization" = none := by
  decide

/-- C8 (amended): for every non-empty stored token the request goes out
with `Authorization: Bearer <token>` carrying exactly that token, and with
no stored token the interceptor leaves the config unchanged. -/
theorem auth_header_exact (t : String) (cfg : Config) (h : t ≠ "") :
    mapGet (requestInterceptor (some t) cfg).headers "Authorization"
      = some ("Bearer " ++ t) ∧
    requestInterceptor none cfg = cfg := by
  constructor
  · simp [requestInterceptor, jsTruthyStr, h, mapGet_mapSet_self]
  · simp [requestInterceptor, jsTruthyStr]

/-- C8 (witness): token `abc` on a headerless config. -/
theorem auth_header_exact_witness :
    mapGet (requestInterceptor (some "abc") ⟨none, none, []⟩).headers "Authorization"
        = some ("Bearer " ++ "abc") ∧
    requestInterceptor none ⟨none, none, []⟩ = ⟨none, none, []⟩ :=
  auth_header_exact "abc" ⟨none, none, []⟩ (by decide)

/-- C9: `isTokenValid` is false with no stored token, true when the probe
of `/users/me` succeeds, false when it fails as an axios error with status
401, and true on any other failure. -/
theorem isTokenValid_classification (t : String) (probe : ProbeResult)
    (isAx : Bool) (status : Option Nat) (ht : t ≠ "") :
    isTokenValid none probe = false ∧
    isTokenValid (some t) ProbeResult.ok = true ∧
    isTokenValid (some t) (ProbeResult.fail true (some 401)) = false ∧
    ((isAx && status == some 401) = false →
      isTokenValid (some t) (ProbeResult.fail isAx status) = true) := by
  refine ⟨by simp [isTokenValid, jsTruthyStr], ?_, ?_, ?_⟩
  · simp [isTokenValid, jsTruthyStr, ht]
  · simp [isTokenValid, jsTruthyStr, ht]
  · intro hother
    simp [isTokenValid, jsTruthyStr, ht, hother]

/-- C3: replaying any run of retry-qualifying failures of one URL from a
fresh ledger, at most 2 retries happen, and the successive backoff delays
are exactly the leading entries of [1000 ms, 2000 ms], i.e. retry N waits
2^(N-1) seconds as computed from the per-URL attempt count. -/
theorem backoff_delays_bounded (env : Env) (st : ClientState) (u : String)
    (l : List Outcome)
    (hall : ∀ o ∈ l, ∃ e, o = Outcome.err e ∧ retryCond e = true ∧ errUrl e = some u)
    (h0 : mapGet st.retryCount u = none) :
    (runAttempts env st l).2.2.length ≤ 2 ∧
    (runAttempts env st l).2.2
      = List.take (runAttempts env st l).2.2.length [1000, 2000] := by
  rcases l with _ | ⟨o1, l1⟩
  · simp [runAttempts]
  obtain ⟨e1, rfl, hc1, hu1⟩ := hall o1 (List.mem_cons_self _ _)
  rw [runAttempts_err_step env st e1 u l1 0 hc1 hu1 (by simp [h0]) (by norm_num)]
  rcases l1 with _ | ⟨o2, l2⟩
  · simp [runAttempts]
  obtain ⟨e2, rfl, hc2, hu2⟩ := hall o2 (by simp)
  rw [runAttempts_err_step env { st with retryCount := mapSet st.retryCount u (0 + 1) }
    e2 u l2 1 hc2 hu2 (by simp [mapGet_mapSet_self]) (by norm_num)]
  rcases l2 with _ | ⟨o3, l3⟩
  · simp [runAttempts]
  obtain ⟨e3, rfl, hc3, hu3⟩ := hall o3 (by simp)
  rw [runAttempts_err_stop env
    { st with retryCount := mapSet (mapSet st.retryCount u (0 + 1)) u (1 + 1) }
    e3 u l3 hu3 (by simp [mapGet_mapSet_self])]
  simp

/-- C3 (witness): three 401s on `/users/me` give delays [1000, 2000]. -/
theorem backoff_delays_bounded_witness :
    (runAttempts ⟨"/p", "", "hidden", 0⟩ ⟨some "t", none, [], 0, none⟩
        [Outcome.err ⟨some ⟨some "/users/me", some "get", []⟩, none, some ⟨401⟩⟩,
         Outcome.err ⟨some ⟨some "/users/me", some "get", []⟩, none, some ⟨401⟩⟩,
         Outcome.err ⟨some ⟨some "/users/me", some "get", []⟩, none, some ⟨401⟩⟩]).2.2.length ≤ 2 ∧
    (runAttempts ⟨"/p", "", "hidden", 0⟩ ⟨some "t", none, [], 0, none⟩
        [Outcome.err ⟨some ⟨some "/users/me", some "get", []⟩, none, some ⟨401⟩⟩,
         Outcome.err ⟨some ⟨some "/users/me", some "get", []⟩, none, some ⟨401⟩⟩,
         Outcome.err ⟨some ⟨some "/users/me", some "get", []⟩, none, some ⟨401⟩⟩]).2.2
      = List.take (runAttempts ⟨"/p", "", "hidden", 0⟩ ⟨some "t", none, [], 0, none⟩
          [Outcome.err ⟨some ⟨some "/users/me", some "get", []⟩, none, some ⟨401⟩⟩,
           Outcome.err ⟨some ⟨some "/users/me", some "get", []⟩, none, some ⟨401⟩⟩,
           Outcome.err ⟨some ⟨some "/users/me", some "get", []⟩, none,
             some ⟨401⟩⟩]).2.2.length [1000, 2000] := by
  refine backoff_delays_bounded _ _ "/users/me" _ ?_ (by decide)
  intro o ho
  have hoe : o = Outcome.err ⟨some ⟨some "/users/me", some "get", []⟩, none, some ⟨401⟩⟩ := by
    simpa using ho
  subst hoe
  exact ⟨_, rfl, by decide, by decide⟩

/-- C4: when the original attempt and both retries of a retry-eligible
request all fail, the rejection handed to the caller is precisely the error
object of the third (final) attempt. -/
theorem final_attempt_error_surfaced (env : Env) (st : ClientState) (u : String)
    (e1 e2 e3 : AxiosErr)
    (hc1 : retryCond e1 = true) (hu1 : errUrl e1 = some u)
    (hc2 : retryCond e2 = true) (hu2 : errUrl e2 = some u)
    (hu3 : errUrl e3 = some u)
    (h0 : mapGet st.retryCount u = none) :
    (runAttempts env st [Outcome.err e1, Outcome.err e2, Outcome.err e3]).1
      = RunResult.failure e3 := by
  rw [runAttempts_err_step env st e1 u [Outcome.err e2, Outcome.err e3] 0 hc1 hu1
    (by simp [h0]) (by norm_num)]
  rw [runAttempts_err_step env { st with retryCount := mapSet st.retryCount u (0 + 1) }
    e2 u [Outcome.err e3] 1 hc2 hu2 (by simp [mapGet_mapSet_self]) (by norm_num)]
  rw [runAttempts_err_stop env
    { st with retryCount := mapSet (mapSet st.retryCount u (0 + 1)) u (1 + 1) }
    e3 u [] hu3 (by simp [mapGet_mapSet_self])]

/-- C4 (witness): three distinguishable 401s on `/users/me`; the third one
comes back. -/
theorem final_attempt_error_surfaced_witness :
    (runAttempts ⟨"/p", "", "hidden", 0⟩ ⟨some "a", none, [], 0, none⟩
        [Outcome.err ⟨some ⟨some "/users/me", some "get", [("X", "1")]⟩, none, some ⟨401⟩⟩,
         Outcome.err ⟨some ⟨some "/users/me", some "get", [("X", "2")]⟩, none, some ⟨401⟩⟩,
         Outcome.err ⟨some ⟨some "/users/me", some "get", [("X", "3")]⟩, none, some ⟨401⟩⟩]).1
      = RunResult.failure
          ⟨some ⟨some "/users/me", some "get", [("X", "3")]⟩, none, some ⟨401⟩⟩ :=
  final_attempt_error_surfaced ⟨"/p", "", "hidden", 0⟩ ⟨some "a", none, [], 0, none⟩
    "/users/me"
    ⟨some ⟨some "/users/me", some "get", [("X", "1")]⟩, none, some ⟨401⟩⟩
    ⟨some ⟨some "/users/me", some "get", [("X", "2")]⟩, none, some ⟨401⟩⟩
    ⟨some ⟨some "/users/me", some "get", [("X", "3")]⟩, none, some ⟨401⟩⟩
    (by decide) (by decide) (by decide) (by decide) (by decide) (by decide)

/-- C10: the error interceptor never removes a retry-ledger entry; with an
entry at the cap (2), a further failure of that URL is not retried (it is
rejected) and the entry stays at 2; only a success of that URL deletes the
entry. -/
theorem retry_ledger_cleared_only_on_success (env : Env) (st : ClientState)
    (e : AxiosErr) (u v : String) (cfg : Config) :
    ((mapGet st.retryCount v).isSome = true →
      (mapGet (responseErrorInterceptor env st e).2.retryCount v).isSome = true) ∧
    (mapGet st.retryCount u = some 2 → errUrl e = some u →
      (responseErrorInterceptor env st e).1 = HandlerOut.reject e ∧
      mapGet (responseErrorInterceptor env st e).2.retryCount u = some 2) ∧
    (cfg.url = some u → u ≠ "" →
      mapGet (responseSuccessInterceptor st cfg).retryCount u = none) := by
  refine ⟨?_, ?_, ?_⟩
  · intro hsome
    by_cases hc : retryCond e
    · by_cases hcnt : (mapGet st.retryCount ((errUrl e).getD "")).getD 0 < 2
      · simp only [responseErrorInterceptor, hc, if_true, hcnt, if_pos]
        exact mapGet_mapSet_isSome _ _ _ _ hsome
      · rw [rei_of_capped_any env st e hcnt, handle401_retryCount]
        exact hsome
    · rw [rei_of_retryCond_false env st e (by simpa using hc), handle401_retryCount]
      exact hsome
  · intro hcap hu
    have hcnt : ¬ (mapGet st.retryCount u).getD 0 < 2 := by simp [hcap]
    rw [rei_of_capped env st e u hu hcnt]
    exact ⟨handle401_fst env st e, by rw [handle401_retryCount]; exact hcap⟩
  · intro hu hne
    simp [responseSuccessInterceptor, hu, jsTruthyStr, hne, mapGet_mapDelete_self]

/-- C10 (witness): with the `/users/me` entry at the cap, a qualifying 401
is rejected, the entry survives, and a success deletes it. -/
theorem retry_ledger_cleared_only_on_success_witness :
    (mapGet (responseErrorInterceptor ⟨"/p", "", "hidden", 0⟩
        ⟨some "t", none, [("/users/me", 2)], 0, none⟩
        ⟨some ⟨some "/users/me", some "get", []⟩, none,
          some ⟨401⟩⟩).2.retryCount "/users/me").isSome = true ∧
    ((responseErrorInterceptor ⟨"/p", "", "hidden", 0⟩
        ⟨some "t", none, [("/users/me", 2)], 0, none⟩
        ⟨some ⟨some "/users/me", some "get", []⟩, none, some ⟨401⟩⟩).1
      = HandlerOut.reject ⟨some ⟨some "/users/me", some "get", []⟩, none, some ⟨401⟩⟩ ∧
     mapGet (responseErrorInterceptor ⟨"/p", "", "hidden", 0⟩
        ⟨some "t", none, [("/users/me", 2)], 0, none⟩
        ⟨some ⟨some "/users/me", some "get", []⟩, none,
          some ⟨401⟩⟩).2.retryCount "/users/me" = some 2) ∧
    mapGet (responseSuccessInterceptor ⟨some "t", none, [("/users/me", 2)], 0, none⟩
        ⟨some "/users/me", some "get", []⟩).retryCount "/users/me" = none := by
  have h := retry_ledger_cleared_only_on_success ⟨"/p", "", "hidden", 0⟩
    ⟨some "t", none, [("/users/me", 2)], 0, none⟩
    ⟨some ⟨some "/users/me", some "get", []⟩, none, some ⟨401⟩⟩
    "/users/me" "/users/me" ⟨some "/users/me", some "get", []⟩
  exact ⟨h.1 (by decide), h.2.1 (by decide) (by decide), h.2.2 (by decide) (by decide)⟩

/-- C9 (witness): token `abc`, network-style failure (not an axios 401). -/
theorem isTokenValid_classification_witness :
    isTokenValid none ProbeResult.ok = false ∧
    isTokenValid (some "abc") ProbeResult.ok = true ∧
    isTokenValid (some "abc") (ProbeResult.fail true (some 401)) = false ∧
    isTokenValid (some "abc") (ProbeResult.fail false none) = true := by
  have h := isTokenValid_classification "abc" ProbeResult.ok false none (by decide)
  exact ⟨h.1, h.2.1, h.2.2.1, h.2.2.2 (by decide)⟩

end BaseService
